import Mathlib

/-!
Shallow embedding of `src/bot.py` (a Google-Drive-to-Telegram video
conversion bot) and proofs of the behavioural properties of its
conversion workflow, ledger, and error handling.

The effectful Python handler is embedded as a pure function over an
explicit environment describing the collaborators (download result,
upload outcome, filesystem deletion failure, storage-engine failure)
and explicit database and filesystem states.

The ledger functions `setup_database` and `log_to_db` assign `conn`
inside their `try` block but test `if conn` in their `finally` block.
When `sqlite3.connect` itself raises, `conn` is an unbound local and
the `finally` raises `UnboundLocalError` to the caller. The embedding
keeps this path: ledger calls return `Except`, distinguishing a
connect-time engine failure (which propagates) from an execute-time
engine failure (which the `except sqlite3.Error` swallows), and
`handle_link` records whether an exception escaped the handler.
-/

/-- Prefix test on character lists: helper for the substring search
used to model Python `needle in hay`. -/
def strHasPfx : List Char → List Char → Bool
  | [], _ => true
  | _ :: _, [] => false
  | a :: as, b :: bs => a == b && strHasPfx as bs

/-- Substring occurrence test on character lists. -/
def strHasSub (needle : List Char) : List Char → Bool
  | [] => needle.isEmpty
  | h :: t => strHasPfx needle (h :: t) || strHasSub needle t

/-- Python substring membership `needle in hay` on strings
(`bot.py` line 113 and lines 153, 158). -/
def strContains (hay needle : String) : Bool :=
  strHasSub needle.toList hay.toList

/-- One row of the `videos` table (schema created at `bot.py` lines 49-60). -/
structure Record where
  user_id : String
  original_link : String
  telegram_file : Option String
  status : String
  deriving DecidableEq

/-- State of the SQLite backing store: which tables exist and the rows
of the `videos` table. -/
structure DBState where
  tables : List String
  rows : List Record
  deriving DecidableEq

/-- How the storage engine behaves during one ledger call:
`noFail` is normal operation; `connectFail` means `sqlite3.connect`
raises `sqlite3.Error` (`bot.py` lines 47, 73), leaving `conn` unbound
so the `finally` raises `UnboundLocalError` to the caller
(`bot.py` lines 66, 86); `execFail` means the connection succeeds but
`execute`/`commit` raises `sqlite3.Error`, which the `except` clause
catches and logs (`bot.py` lines 63-64, 83-84). -/
inductive DBFailure where
  | noFail
  | connectFail
  | execFail
  deriving DecidableEq

/-- Message of the `UnboundLocalError` raised by `if conn:` when
`sqlite3.connect` failed and `conn` was never assigned
(`bot.py` lines 66, 86). -/
def unboundLocalMsg : String :=
  "local variable \x27conn\x27 referenced before assignment"

/-- The raw `INSERT INTO videos ...` statement (`bot.py` lines 75-81):
it raises `sqlite3.Error` when the table does not exist. -/
def insertRow (db : DBState) (r : Record) : Except String DBState :=
  if "videos" ∈ db.tables then Except.ok { db with rows := db.rows ++ [r] }
  else Except.error "no such table: videos"

/-- `log_to_db` (`bot.py` lines 70-87): inserts one row, converting the
numeric user id to text. An execute-time `sqlite3.Error` is caught,
logged and swallowed, leaving the store unchanged; but when
`sqlite3.connect` itself raises, the `finally` block evaluates
`if conn:` on an unbound local and the resulting `UnboundLocalError`
propagates to the caller. -/
def log_to_db (fail : DBFailure) (db : DBState) (user_id : Nat) (original_link : String)
    (telegram_file_id : Option String) (status : String) : Except String DBState :=
  match fail with
  | DBFailure.connectFail => Except.error unboundLocalMsg
  | DBFailure.execFail => Except.ok db
  | DBFailure.noFail =>
      match insertRow db
          { user_id := toString user_id, original_link := original_link,
            telegram_file := telegram_file_id, status := status } with
      | Except.ok db2 => Except.ok db2
      | Except.error _ => Except.ok db

/-- `setup_database` (`bot.py` lines 44-67): runs
`CREATE TABLE IF NOT EXISTS videos ...`. An execute-time
`sqlite3.Error` is caught and logged; a connect-time failure leaves
`conn` unbound and the `finally` raises `UnboundLocalError`. -/
def setup_database (fail : DBFailure) (db : DBState) : Except String DBState :=
  match fail with
  | DBFailure.connectFail => Except.error unboundLocalMsg
  | DBFailure.execFail => Except.ok db
  | DBFailure.noFail =>
      Except.ok (if "videos" ∈ db.tables then db
                 else { db with tables := db.tables ++ ["videos"] })

/-- Outcome of `update.message.reply_video` (`bot.py` lines 134-138):
success with a platform file id, a `TelegramError` with a textual
message, or any other exception. -/
inductive UploadOutcome where
  | ok (fileId : String)
  | telegramErr (msg : String)
  | otherErr (msg : String)
  deriving DecidableEq

/-- Behaviour of the collaborators during one conversation:
the `gdown.download` result (a local path, or `none`), the upload
outcome, whether `os.remove` raises `OSError`, and how the SQLite
engine behaves. -/
structure Env where
  downloadResult : Option String
  upload : UploadOutcome
  removeRaises : Bool
  dbFail : DBFailure
  deriving DecidableEq

/-- The `ConversationHandler.END` sentinel of python-telegram-bot. -/
def END : Int := -1

/-- `os.remove` (`bot.py` line 176): deletes the path or raises `OSError`. -/
def osRemove (raises : Bool) (fs : List String) (p : String) : Except String (List String) :=
  if raises then Except.error "OSError" else Except.ok (fs.erase p)

/-- The `finally` block of `handle_link` (`bot.py` lines 172-179): when the
acquire step produced a path that still exists, delete it; an `OSError`
from the deletion is caught and only logged. -/
def cleanup (raises : Bool) (fs : List String) (outputPath : Option String) : List String :=
  match outputPath with
  | none => fs
  | some p =>
      if p ∈ fs then
        match osRemove raises fs p with
        | Except.ok fs2 => fs2
        | Except.error _ => fs
      else fs

/-- Warning sent when the submitted text fails validation
(`bot.py` lines 114-117). -/
def warningMsg : String :=
  "⚠️ This doesn\x27t look like a valid Google Drive link. Please check the link and try /convertvd again."

/-- Initial text of the status message (`bot.py` line 120). -/
def downloadingMsg : String := "⏳ Downloading video..."

/-- Status shown before the upload (`bot.py` line 132). -/
def uploadingMsg : String := "📤 Uploading to Telegram..."

/-- Final status on success (`bot.py` line 145). -/
def doneMsg : String := "✅ Upload complete!"

/-- Fixed oversize message (`bot.py` lines 154-156). -/
def oversizeMsg : String :=
  "❌ Error: The video file is too large for me to upload to Telegram (max 2GB)."

/-- Fixed timeout message (`bot.py` lines 159-161). -/
def timeoutMsg : String :=
  "❌ Error: The upload to Telegram timed out. This can happen with large files or network issues. Please try again."

/-- Generic upload-error template embedding the raw message (`bot.py` line 163). -/
def uploadErrMsg (m : String) : String := "❌ An error occurred during upload: " ++ m

/-- Generic unexpected-error template (`bot.py` line 169). -/
def unexpectedErrMsg (m : String) : String := "❌ An unexpected error occurred: " ++ m

/-- Message of the synthetic exception raised when `gdown.download`
returns `None` (`bot.py` line 129). -/
def downloadFailedMsg : String := "Download failed. File might be private or deleted."

/-- The `except TelegramError` classification (`bot.py` lines 150-163):
substring search on the textual message, oversize first, then timeout,
else the generic template. -/
def classifyTelegramError (m : String) : String :=
  if strContains m "File is too big" then oversizeMsg
  else if strContains m "Timed out" then timeoutMsg
  else uploadErrMsg m

/-- Observable result of one `handle_link` run: warnings sent as fresh
messages, the history and final text of the edited status message, the
database, the filesystem, whether each collaborator was invoked, the
returned conversation state (`some END` on a normal return, `none` when
an exception escaped the handler), and the message of the escaping
exception, if any. -/
structure HandlerResult where
  warnings : List String
  statusHistory : List String
  statusText : Option String
  db : DBState
  fs : List String
  downloadCalled : Bool
  uploadCalled : Bool
  ret : Option Int
  escaped : Option String
  deriving DecidableEq

/-- `handle_link` (`bot.py` lines 106-181). Branches: validation failure
(line 113); `gdown.download` returning `None`, whose synthetic exception
lands in `except Exception` (lines 127-129, 166-170); successful upload
(lines 131-145); `TelegramError` during upload (lines 150-164); any other
upload exception (lines 166-170). Every branch runs the `finally` cleanup
(lines 172-179). A `log_to_db` call that raises `UnboundLocalError`
inside the try block is caught by `except Exception` (line 166), which
edits the status with that message and calls `log_to_db` again
(line 170); a `log_to_db` call raising inside an except block has no
enclosing handler, so after the `finally` the exception escapes and
`ConversationHandler.END` (line 181) is never returned. -/
def handle_link (env : Env) (db0 : DBState) (fs0 : List String) (user_id : Nat)
    (link : String) : HandlerResult :=
  if strContains link "drive.google.com" then
    match env.downloadResult with
    | none =>
        match log_to_db env.dbFail db0 user_id link none "error" with
        | Except.ok db1 =>
            { warnings := [],
              statusHistory := [downloadingMsg, unexpectedErrMsg downloadFailedMsg],
              statusText := some (unexpectedErrMsg downloadFailedMsg),
              db := db1,
              fs := cleanup env.removeRaises fs0 none,
              downloadCalled := true, uploadCalled := false,
              ret := some END, escaped := none }
        | Except.error e =>
            { warnings := [],
              statusHistory := [downloadingMsg, unexpectedErrMsg downloadFailedMsg],
              statusText := some (unexpectedErrMsg downloadFailedMsg),
              db := db0,
              fs := cleanup env.removeRaises fs0 none,
              downloadCalled := true, uploadCalled := false,
              ret := none, escaped := some e }
    | some p =>
        match env.upload with
        | UploadOutcome.ok fid =>
            match log_to_db env.dbFail db0 user_id link (some fid) "done" with
            | Except.ok db1 =>
                { warnings := [],
                  statusHistory := [downloadingMsg, uploadingMsg, doneMsg],
                  statusText := some doneMsg,
                  db := db1,
                  fs := cleanup env.removeRaises (p :: fs0) (some p),
                  downloadCalled := true, uploadCalled := true,
                  ret := some END, escaped := none }
            | Except.error e =>
                match log_to_db env.dbFail db0 user_id link none "error" with
                | Except.ok db2 =>
                    { warnings := [],
                      statusHistory := [downloadingMsg, uploadingMsg, unexpectedErrMsg e],
                      statusText := some (unexpectedErrMsg e),
                      db := db2,
                      fs := cleanup env.removeRaises (p :: fs0) (some p),
                      downloadCalled := true, uploadCalled := true,
                      ret := some END, escaped := none }
                | Except.error e2 =>
                    { warnings := [],
                      statusHistory := [downloadingMsg, uploadingMsg, unexpectedErrMsg e],
                      statusText := some (unexpectedErrMsg e),
                      db := db0,
                      fs := cleanup env.removeRaises (p :: fs0) (some p),
                      downloadCalled := true, uploadCalled := true,
                      ret := none, escaped := some e2 }
        | UploadOutcome.telegramErr m =>
            match log_to_db env.dbFail db0 user_id link none "error" with
            | Except.ok db1 =>
                { warnings := [],
                  statusHistory := [downloadingMsg, uploadingMsg, classifyTelegramError m],
                  statusText := some (classifyTelegramError m),
                  db := db1,
                  fs := cleanup env.removeRaises (p :: fs0) (some p),
                  downloadCalled := true, uploadCalled := true,
                  ret := some END, escaped := none }
            | Except.error e =>
                { warnings := [],
                  statusHistory := [downloadingMsg, uploadingMsg, classifyTelegramError m],
                  statusText := some (classifyTelegramError m),
                  db := db0,
                  fs := cleanup env.removeRaises (p :: fs0) (some p),
                  downloadCalled := true, uploadCalled := true,
                  ret := none, escaped := some e }
        | UploadOutcome.otherErr m =>
            match log_to_db env.dbFail db0 user_id link none "error" with
            | Except.ok db1 =>
                { warnings := [],
                  statusHistory := [downloadingMsg, uploadingMsg, unexpectedErrMsg m],
                  statusText := some (unexpectedErrMsg m),
                  db := db1,
                  fs := cleanup env.removeRaises (p :: fs0) (some p),
                  downloadCalled := true, uploadCalled := true,
                  ret := some END, escaped := none }
            | Except.error e =>
                { warnings := [],
                  statusHistory := [downloadingMsg, uploadingMsg, unexpectedErrMsg m],
                  statusText := some (unexpectedErrMsg m),
                  db := db0,
                  fs := cleanup env.removeRaises (p :: fs0) (some p),
                  downloadCalled := true, uploadCalled := true,
                  ret := none, escaped := some e }
  else
    { warnings := [warningMsg], statusHistory := [], statusText := none,
      db := db0, fs := fs0, downloadCalled := false, uploadCalled := false,
      ret := some END, escaped := none }

/-- Helper: the user-facing output of `handle_link` (warnings, final status
text, return value, escaping exception) does not depend on the `os.remove`
failure flag. -/
lemma handle_link_ui_eq (dr : Option String) (up : UploadOutcome) (r1 r2 : Bool)
    (df : DBFailure) (db0 : DBState) (fs0 : List String) (uid : Nat) (link : String) :
    (handle_link ⟨dr, up, r1, df⟩ db0 fs0 uid link).warnings =
      (handle_link ⟨dr, up, r2, df⟩ db0 fs0 uid link).warnings ∧
    (handle_link ⟨dr, up, r1, df⟩ db0 fs0 uid link).statusText =
      (handle_link ⟨dr, up, r2, df⟩ db0 fs0 uid link).statusText ∧
    (handle_link ⟨dr, up, r1, df⟩ db0 fs0 uid link).ret =
      (handle_link ⟨dr, up, r2, df⟩ db0 fs0 uid link).ret ∧
    (handle_link ⟨dr, up, r1, df⟩ db0 fs0 uid link).escaped =
      (handle_link ⟨dr, up, r2, df⟩ db0 fs0 uid link).escaped := by
  by_cases hv : strContains link "drive.google.com" = true <;>
    cases dr <;> cases up <;> cases df <;>
      by_cases ht : "videos" ∈ db0.tables <;>
        simp [handle_link, log_to_db, insertRow, hv, ht]

/-- Helper: the database written by `handle_link` does not depend on the
`os.remove` failure flag. -/
lemma handle_link_db_ignores_remove (dr : Option String) (up : UploadOutcome)
    (r1 r2 : Bool) (df : DBFailure) (db0 : DBState) (fs0 : List String)
    (uid : Nat) (link : String) :
    (handle_link ⟨dr, up, r1, df⟩ db0 fs0 uid link).db =
      (handle_link ⟨dr, up, r2, df⟩ db0 fs0 uid link).db := by
  by_cases hv : strContains link "drive.google.com" = true <;>
    cases dr <;> cases up <;> cases df <;>
      by_cases ht : "videos" ∈ db0.tables <;>
        simp [handle_link, log_to_db, insertRow, hv, ht]

/-- C6: the claimed property fails in the program. At a concrete failing
input — a valid Drive link whose download returns the absence signal while
`sqlite3.connect` fails — the `log_to_db` call inside the except block
raises `UnboundLocalError` from its `finally`, which escapes
`handle_link`, so the handler does not return `ConversationHandler.END`
even though the user was already shown the in-band error message. -/
theorem C6_unbound_local_error_escapes_handler :
    (handle_link ⟨none, UploadOutcome.ok "F", false, DBFailure.connectFail⟩
        ⟨["videos"], []⟩ [] 7 "https://drive.google.com/file/d/ABC/view").ret = none ∧
    (handle_link ⟨none, UploadOutcome.ok "F", false, DBFailure.connectFail⟩
        ⟨["videos"], []⟩ [] 7 "https://drive.google.com/file/d/ABC/view").escaped =
      some unboundLocalMsg ∧
    (handle_link ⟨none, UploadOutcome.ok "F", false, DBFailure.connectFail⟩
        ⟨["videos"], []⟩ [] 7 "https://drive.google.com/file/d/ABC/view").statusText =
      some (unexpectedErrMsg downloadFailedMsg) := by
  decide

/-- C7: the claimed property fails in the program. An execute-time engine
failure is indeed swallowed with the store unchanged, but when
`sqlite3.connect` itself raises, `log_to_db` raises `UnboundLocalError`
to its caller from the `if conn:` in its `finally` block instead of
returning normally. -/
theorem C7_connect_failure_raises_unbound_local :
    log_to_db DBFailure.connectFail ⟨["videos"], []⟩ 7 "link" none "error" =
      Except.error unboundLocalMsg ∧
    log_to_db DBFailure.execFail ⟨["videos"], []⟩ 7 "link" none "error" =
      Except.ok ⟨["videos"], []⟩ :=
  ⟨rfl, rfl⟩

/-- C3: for every submitted text not containing "drive.google.com",
`handle_link` emits exactly the warning message, creates no status message,
ends the conversation immediately, writes no ledger record, and invokes
neither the download nor the upload collaborator. -/
theorem C3_invalid_link_warns_and_stops (env : Env) (db0 : DBState) (fs0 : List String)
    (uid : Nat) (link : String)
    (hv : strContains link "drive.google.com" = false) :
    (handle_link env db0 fs0 uid link).warnings = [warningMsg] ∧
    (handle_link env db0 fs0 uid link).statusText = none ∧
    (handle_link env db0 fs0 uid link).db = db0 ∧
    (handle_link env db0 fs0 uid link).downloadCalled = false ∧
    (handle_link env db0 fs0 uid link).uploadCalled = false ∧
    (handle_link env db0 fs0 uid link).ret = some END := by
  simp [handle_link, hv]

/-- C3 witness: concrete run on a non-Drive link. -/
theorem C3_witness :
    (handle_link ⟨none, UploadOutcome.ok "F", false, DBFailure.noFail⟩ ⟨["videos"], []⟩ [] 7
        "https://example.com/video.mp4").warnings = [warningMsg] ∧
    (handle_link ⟨none, UploadOutcome.ok "F", false, DBFailure.noFail⟩ ⟨["videos"], []⟩ [] 7
        "https://example.com/video.mp4").statusText = none ∧
    (handle_link ⟨none, UploadOutcome.ok "F", false, DBFailure.noFail⟩ ⟨["videos"], []⟩ [] 7
        "https://example.com/video.mp4").db = ⟨["videos"], []⟩ ∧
    (handle_link ⟨none, UploadOutcome.ok "F", false, DBFailure.noFail⟩ ⟨["videos"], []⟩ [] 7
        "https://example.com/video.mp4").downloadCalled = false ∧
    (handle_link ⟨none, UploadOutcome.ok "F", false, DBFailure.noFail⟩ ⟨["videos"], []⟩ [] 7
        "https://example.com/video.mp4").uploadCalled = false ∧
    (handle_link ⟨none, UploadOutcome.ok "F", false, DBFailure.noFail⟩ ⟨["videos"], []⟩ [] 7
        "https://example.com/video.mp4").ret = some END :=
  C3_invalid_link_warns_and_stops _ _ _ _ _ (by decide)

/-- C10: validation is a pure substring test: any submitted text containing
"drive.google.com" anywhere passes validation and the download collaborator
is invoked, with no position, prefix, or URL-shape requirement. -/
theorem C10_substring_validation_invokes_download (env : Env) (db0 : DBState)
    (fs0 : List String) (uid : Nat) (link : String)
    (hv : strContains link "drive.google.com" = true) :
    (handle_link env db0 fs0 uid link).downloadCalled = true := by
  cases hd : env.downloadResult <;> cases hu : env.upload <;> cases hdf : env.dbFail <;>
    by_cases ht : "videos" ∈ db0.tables <;>
      simp [handle_link, log_to_db, insertRow, hv, hd, hu, hdf, ht]

/-- C10 witness: a text that is not a URL at all but contains the host
substring still reaches the download collaborator. -/
theorem C10_witness :
    (handle_link ⟨none, UploadOutcome.ok "F", false, DBFailure.noFail⟩ ⟨["videos"], []⟩ [] 7
        "hello drive.google.com world, not a url").downloadCalled = true :=
  C10_substring_validation_invokes_download _ _ _ _ _ (by decide)

/-- C1: when acquire returns a local path and the upload succeeds (with a
working ledger and filesystem), exactly one ledger record is appended,
with status "done" and the platform file reference, the final status is
the completion message, and the local artifact no longer exists. -/
theorem C1_success_one_done_record_artifact_deleted (env : Env) (db0 : DBState)
    (fs0 : List String) (uid : Nat) (link p fid : String)
    (hv : strContains link "drive.google.com" = true)
    (hd : env.downloadResult = some p)
    (hu : env.upload = UploadOutcome.ok fid)
    (hdbf : env.dbFail = DBFailure.noFail)
    (htab : "videos" ∈ db0.tables)
    (hrm : env.removeRaises = false)
    (hp : p ∉ fs0) :
    (handle_link env db0 fs0 uid link).db.rows =
      db0.rows ++ [{ user_id := toString uid, original_link := link,
                     telegram_file := some fid, status := "done" }] ∧
    (handle_link env db0 fs0 uid link).statusText = some doneMsg ∧
    p ∉ (handle_link env db0 fs0 uid link).fs := by
  refine ⟨?_, ?_, ?_⟩ <;>
    simp [handle_link, hv, hd, hu, hdbf, hrm, log_to_db, insertRow, htab,
      cleanup, osRemove, List.erase_cons_head, hp]

/-- C1 witness: concrete successful conversion. -/
theorem C1_witness :
    (handle_link ⟨some "video.mp4", UploadOutcome.ok "FILE123", false, DBFailure.noFail⟩
        ⟨["videos"], []⟩ [] 7 "https://drive.google.com/file/d/ABC/view").db.rows =
      [] ++ [{ user_id := toString 7, original_link := "https://drive.google.com/file/d/ABC/view",
               telegram_file := some "FILE123", status := "done" }] ∧
    (handle_link ⟨some "video.mp4", UploadOutcome.ok "FILE123", false, DBFailure.noFail⟩
        ⟨["videos"], []⟩ [] 7 "https://drive.google.com/file/d/ABC/view").statusText =
      some doneMsg ∧
    "video.mp4" ∉ (handle_link ⟨some "video.mp4", UploadOutcome.ok "FILE123", false, DBFailure.noFail⟩
        ⟨["videos"], []⟩ [] 7 "https://drive.google.com/file/d/ABC/view").fs :=
  C1_success_one_done_record_artifact_deleted _ _ _ _ _ _ _
    (by decide) rfl rfl rfl (by decide) rfl (by decide)

/-- C4: when the download collaborator returns the absence signal (with a
working ledger), exactly one ledger record with status "error" and a null
file reference is appended, and the final user-facing message is the
generic unexpected-error template carrying the synthetic download-failed
text. -/
theorem C4_absent_download_one_error_record (env : Env) (db0 : DBState)
    (fs0 : List String) (uid : Nat) (link : String)
    (hv : strContains link "drive.google.com" = true)
    (hd : env.downloadResult = none)
    (hdbf : env.dbFail = DBFailure.noFail)
    (htab : "videos" ∈ db0.tables) :
    (handle_link env db0 fs0 uid link).db.rows =
      db0.rows ++ [{ user_id := toString uid, original_link := link,
                     telegram_file := none, status := "error" }] ∧
    (handle_link env db0 fs0 uid link).statusText =
      some (unexpectedErrMsg downloadFailedMsg) := by
  refine ⟨?_, ?_⟩ <;>
    simp [handle_link, hv, hd, hdbf, log_to_db, insertRow, htab]

/-- C4 witness: concrete run with a download absence signal. -/
theorem C4_witness :
    (handle_link ⟨none, UploadOutcome.ok "F", false, DBFailure.noFail⟩ ⟨["videos"], []⟩ [] 7
        "https://drive.google.com/file/d/ABC/view").db.rows =
      [] ++ [{ user_id := toString 7, original_link := "https://drive.google.com/file/d/ABC/view",
               telegram_file := none, status := "error" }] ∧
    (handle_link ⟨none, UploadOutcome.ok "F", false, DBFailure.noFail⟩ ⟨["videos"], []⟩ [] 7
        "https://drive.google.com/file/d/ABC/view").statusText =
      some (unexpectedErrMsg downloadFailedMsg) :=
  C4_absent_download_one_error_record _ _ _ _ _ (by decide) rfl rfl (by decide)

/-- C2: classification of a `TelegramError` raised during publish: a message
containing the oversize marker yields the fixed 2GB message; otherwise one
containing the timed-out marker yields the fixed timeout message; otherwise
the generic upload-error template embeds the raw message. -/
theorem C2_telegram_error_classification (env : Env) (db0 : DBState)
    (fs0 : List String) (uid : Nat) (link p m : String)
    (hv : strContains link "drive.google.com" = true)
    (hd : env.downloadResult = some p)
    (hu : env.upload = UploadOutcome.telegramErr m) :
    (strContains m "File is too big" = true →
      (handle_link env db0 fs0 uid link).statusText = some oversizeMsg) ∧
    (strContains m "File is too big" = false → strContains m "Timed out" = true →
      (handle_link env db0 fs0 uid link).statusText = some timeoutMsg) ∧
    (strContains m "File is too big" = false → strContains m "Timed out" = false →
      (handle_link env db0 fs0 uid link).statusText = some (uploadErrMsg m)) := by
  refine ⟨fun h1 => ?_, fun h1 h2 => ?_, fun h1 h2 => ?_⟩
  · cases hlog : log_to_db env.dbFail db0 uid link none "error" <;>
      simp [handle_link, hv, hd, hu, hlog, classifyTelegramError, h1]
  · cases hlog : log_to_db env.dbFail db0 uid link none "error" <;>
      simp [handle_link, hv, hd, hu, hlog, classifyTelegramError, h1, h2]
  · cases hlog : log_to_db env.dbFail db0 uid link none "error" <;>
      simp [handle_link, hv, hd, hu, hlog, classifyTelegramError, h1, h2]

/-- C2 witness: a message matching no known marker gets the generic
upload-error template. -/
theorem C2_witness :
    (handle_link ⟨some "video.mp4", UploadOutcome.telegramErr "boom", false, DBFailure.noFail⟩
        ⟨["videos"], []⟩ [] 7 "https://drive.google.com/file/d/ABC/view").statusText =
      some (uploadErrMsg "boom") :=
  (C2_telegram_error_classification _ _ _ _ _ _ _ (by decide) rfl rfl).2.2
    (by decide) (by decide)

/-- C9: classification precedence: a `TelegramError` message containing both
the oversize marker and the timed-out marker is reported with the fixed
oversize message, because the oversize branch is tested first. -/
theorem C9_oversize_beats_timeout (env : Env) (db0 : DBState)
    (fs0 : List String) (uid : Nat) (link p m : String)
    (hv : strContains link "drive.google.com" = true)
    (hd : env.downloadResult = some p)
    (hu : env.upload = UploadOutcome.telegramErr m)
    (h1 : strContains m "File is too big" = true)
    (_h2 : strContains m "Timed out" = true) :
    (handle_link env db0 fs0 uid link).statusText = some oversizeMsg := by
  cases hlog : log_to_db env.dbFail db0 uid link none "error" <;>
    simp [handle_link, hv, hd, hu, hlog, classifyTelegramError, h1]

/-- C9 witness: a message carrying both markers yields the oversize text. -/
theorem C9_witness :
    (handle_link
        ⟨some "video.mp4", UploadOutcome.telegramErr "File is too big and Timed out", false,
          DBFailure.noFail⟩
        ⟨["videos"], []⟩ [] 7 "https://drive.google.com/file/d/ABC/view").statusText =
      some oversizeMsg :=
  C9_oversize_beats_timeout _ _ _ _ _ _ _ (by decide) rfl rfl (by decide) (by decide)

/-- C5: the cleanup step runs in every branch: a deletion failure changes
neither the user-facing output, nor the record written, nor whether the
handler returns or escapes, and when the acquire step produced a fresh
path and deletion succeeds the artifact is gone afterwards. -/
theorem C5_cleanup_always_runs_failure_silent (env : Env) (db0 : DBState)
    (fs0 : List String) (uid : Nat) (link p : String) :
    ((handle_link { env with removeRaises := true } db0 fs0 uid link).warnings =
       (handle_link { env with removeRaises := false } db0 fs0 uid link).warnings ∧
     (handle_link { env with removeRaises := true } db0 fs0 uid link).statusText =
       (handle_link { env with removeRaises := false } db0 fs0 uid link).statusText ∧
     (handle_link { env with removeRaises := true } db0 fs0 uid link).db =
       (handle_link { env with removeRaises := false } db0 fs0 uid link).db ∧
     (handle_link { env with removeRaises := true } db0 fs0 uid link).ret =
       (handle_link { env with removeRaises := false } db0 fs0 uid link).ret ∧
     (handle_link { env with removeRaises := true } db0 fs0 uid link).escaped =
       (handle_link { env with removeRaises := false } db0 fs0 uid link).escaped) ∧
    (env.removeRaises = false → env.downloadResult = some p → p ∉ fs0 →
      p ∉ (handle_link env db0 fs0 uid link).fs) := by
  obtain ⟨dr, up, rr, df⟩ := env
  constructor
  · exact ⟨(handle_link_ui_eq dr up true false df db0 fs0 uid link).1,
      (handle_link_ui_eq dr up true false df db0 fs0 uid link).2.1,
      handle_link_db_ignores_remove dr up true false df db0 fs0 uid link,
      (handle_link_ui_eq dr up true false df db0 fs0 uid link).2.2.1,
      (handle_link_ui_eq dr up true false df db0 fs0 uid link).2.2.2⟩
  · intro hrm hd hp
    simp only at hrm hd
    subst hrm
    subst hd
    by_cases hv : strContains link "drive.google.com" = true <;>
      cases up <;> cases df <;>
        by_cases ht : "videos" ∈ db0.tables <;>
          simp [handle_link, log_to_db, insertRow, hv, ht, cleanup, osRemove,
            List.erase_cons_head, hp]

/-- C5 witness: concrete successful run, compared against the same run with
a failing deletion, plus artifact removal in the non-failing run. -/
theorem C5_witness :
    ((handle_link ⟨some "video.mp4", UploadOutcome.ok "F", true, DBFailure.noFail⟩
         ⟨["videos"], []⟩ [] 7 "https://drive.google.com/file/d/ABC/view").warnings =
       (handle_link ⟨some "video.mp4", UploadOutcome.ok "F", false, DBFailure.noFail⟩
         ⟨["videos"], []⟩ [] 7 "https://drive.google.com/file/d/ABC/view").warnings ∧
     (handle_link ⟨some "video.mp4", UploadOutcome.ok "F", true, DBFailure.noFail⟩
         ⟨["videos"], []⟩ [] 7 "https://drive.google.com/file/d/ABC/view").statusText =
       (handle_link ⟨some "video.mp4", UploadOutcome.ok "F", false, DBFailure.noFail⟩
         ⟨["videos"], []⟩ [] 7 "https://drive.google.com/file/d/ABC/view").statusText ∧
     (handle_link ⟨some "video.mp4", UploadOutcome.ok "F", true, DBFailure.noFail⟩
         ⟨["videos"], []⟩ [] 7 "https://drive.google.com/file/d/ABC/view").db =
       (handle_link ⟨some "video.mp4", UploadOutcome.ok "F", false, DBFailure.noFail⟩
         ⟨["videos"], []⟩ [] 7 "https://drive.google.com/file/d/ABC/view").db ∧
     (handle_link ⟨some "video.mp4", UploadOutcome.ok "F", true, DBFailure.noFail⟩
         ⟨["videos"], []⟩ [] 7 "https://drive.google.com/file/d/ABC/view").ret =
       (handle_link ⟨some "video.mp4", UploadOutcome.ok "F", false, DBFailure.noFail⟩
         ⟨["videos"], []⟩ [] 7 "https://drive.google.com/file/d/ABC/view").ret ∧
     (handle_link ⟨some "video.mp4", UploadOutcome.ok "F", true, DBFailure.noFail⟩
         ⟨["videos"], []⟩ [] 7 "https://drive.google.com/file/d/ABC/view").escaped =
       (handle_link ⟨some "video.mp4", UploadOutcome.ok "F", false, DBFailure.noFail⟩
         ⟨["videos"], []⟩ [] 7 "https://drive.google.com/file/d/ABC/view").escaped) ∧
    "video.mp4" ∉ (handle_link ⟨some "video.mp4", UploadOutcome.ok "F", false, DBFailure.noFail⟩
         ⟨["videos"], []⟩ [] 7 "https://drive.google.com/file/d/ABC/view").fs :=
  ⟨(C5_cleanup_always_runs_failure_silent
      ⟨some "video.mp4", UploadOutcome.ok "F", false, DBFailure.noFail⟩
      ⟨["videos"], []⟩ [] 7 "https://drive.google.com/file/d/ABC/view" "video.mp4").1,
   (C5_cleanup_always_runs_failure_silent
      ⟨some "video.mp4", UploadOutcome.ok "F", false, DBFailure.noFail⟩
      ⟨["videos"], []⟩ [] 7 "https://drive.google.com/file/d/ABC/view" "video.mp4").2
     rfl rfl (by decide)⟩

/-- C8: initializing the ledger twice in sequence with a working engine is
idempotent: composing the two calls equals one call, and whatever state
the first call returns contains the table exactly once (no duplicate),
while the second call returns it unchanged without error. -/
theorem C8_setup_database_idempotent (db : DBState) :
    (setup_database DBFailure.noFail db).bind (setup_database DBFailure.noFail) =
      setup_database DBFailure.noFail db ∧
    ∀ db1, setup_database DBFailure.noFail db = Except.ok db1 →
      "videos" ∈ db1.tables ∧
      setup_database DBFailure.noFail db1 = Except.ok db1 ∧
      (db.tables.count "videos" ≤ 1 → db1.tables.count "videos" = 1) := by
  by_cases h : "videos" ∈ db.tables
  · constructor
    · simp [setup_database, h, Except.bind]
    · intro db1 h1
      simp [setup_database, h] at h1
      subst h1
      refine ⟨h, by simp [setup_database, h], fun hc => ?_⟩
      have hpos : 0 < db.tables.count "videos" := List.count_pos_iff.mpr h
      omega
  · constructor
    · simp [setup_database, h, Except.bind]
    · intro db1 h1
      simp [setup_database, h] at h1
      subst h1
      refine ⟨by simp, by simp [setup_database], fun hc => ?_⟩
      have h0 : db.tables.count "videos" = 0 := List.count_eq_zero.mpr h
      simp [List.count_append]
      omega

/-- C8 witness: double initialization from an empty store. -/
theorem C8_witness :
    ((setup_database DBFailure.noFail ⟨[], []⟩).bind (setup_database DBFailure.noFail) =
       setup_database DBFailure.noFail ⟨[], []⟩) ∧
    "videos" ∈ (⟨["videos"], []⟩ : DBState).tables ∧
    setup_database DBFailure.noFail ⟨["videos"], []⟩ = Except.ok ⟨["videos"], []⟩ ∧
    (DBState.tables ⟨["videos"], []⟩).count "videos" = 1 :=
  ⟨(C8_setup_database_idempotent ⟨[], []⟩).1,
   ((C8_setup_database_idempotent ⟨[], []⟩).2 ⟨["videos"], []⟩ rfl).1,
   ((C8_setup_database_idempotent ⟨[], []⟩).2 ⟨["videos"], []⟩ rfl).2.1,
   ((C8_setup_database_idempotent ⟨[], []⟩).2 ⟨["videos"], []⟩ rfl).2.2 (by decide)⟩
